import Mathlib

/-!
Verification of the recall-manager plugin (src/plugin.py) against its
natural-language specification.

The Python module is shallowly embedded below.  Python values that the
plugin inspects (contexts, backend responses, history records) are
modelled by the inductive type `PyVal`; fallible Python code is modelled
with `Except PyErr`; the module-level helpers keep their source names
(`_is_numeric_like`, `_deep_find_key`, `_query_message_id_from_api`,
`_try_delete_with_fallbacks`), and the two entry points are modelled as
pure functions from an environment (configuration, invocation context,
backend responses) and the per-instance recall cache to an outcome, a new
cache, and a trace of observable events (messages sent, backend commands
issued, cache short-circuits).

Modelling conventions, stated once here:
* `asyncio` sleeps and scheduling delays are abstracted away; a deferred
  deletion task's effects are folded into the same run, after the
  `Event.scheduled` marker (timing is abstracted, effects are kept).
* Python `str()` is `pyStr : PyVal → Option String`; it fails (models a
  raising `__str__`) exactly on the `PyVal.badStr` constructor.  The
  reprs of containers and generic objects are abstracted to fixed
  placeholder strings containing non-digit characters, which preserves
  every property the plugin tests on them (digit-likeness and equality
  with a digit string).  `pyStrD` is the total version used at call
  sites whose surrounding `try` the claims never exercise on `badStr`.
* Python dicts and object attribute sets are association lists in
  insertion order with distinct keys.
-/

/-- Exceptions that the embedded code can raise. -/
inductive PyErr where
  | nameError
  | attributeError
  | indexError
  | typeError
deriving DecidableEq, Repr

/-- A Python value as inspected by the plugin: `None`, booleans, ints,
strings, lists (also standing for tuples), dicts with string keys,
generic objects with introspectable attributes, and `badStr`, an object
whose `str()` raises. -/
inductive PyVal where
  | none
  | bool (b : Bool)
  | int (n : Int)
  | str (s : String)
  | list (xs : List PyVal)
  | dict (entries : List (String × PyVal))
  | obj (attrs : List (String × PyVal))
  | badStr
deriving Repr

/-- First binding of a key in an association list (Python dict lookup). -/
def lookupEntry (entries : List (String × PyVal)) (k : String) : Option PyVal :=
  match entries with
  | [] => Option.none
  | (k2, v) :: rest => if k2 == k then some v else lookupEntry rest k

/-- Python `d.get(k, dflt)`. -/
def dictGetD (entries : List (String × PyVal)) (k : String) (dflt : PyVal) : PyVal :=
  (lookupEntry entries k).getD dflt

/-- Attribute lookup on an introspectable object; `Option.none` when the
value has no such attribute (or is not an object at all). -/
def pyGetAttrOpt (v : PyVal) (name : String) : Option PyVal :=
  match v with
  | PyVal.obj attrs => lookupEntry attrs name
  | _ => Option.none

/-- Python `getattr(v, name, None)` as used through `_safe_getattr`. -/
def pyGetAttrD (v : PyVal) (name : String) : PyVal :=
  (pyGetAttrOpt v name).getD PyVal.none

/-- Python `vars(v)`: attribute dict of a generic object, failure
(`TypeError`, swallowed by callers) otherwise. -/
def getVars (v : PyVal) : Option (List (String × PyVal)) :=
  match v with
  | PyVal.obj attrs => some attrs
  | _ => Option.none

/-- Python truthiness of the modelled values. -/
def pyTruthy (v : PyVal) : Bool :=
  match v with
  | PyVal.none => false
  | PyVal.bool b => b
  | PyVal.int n => n != 0
  | PyVal.str s => s != ""
  | PyVal.list xs => !xs.isEmpty
  | PyVal.dict entries => !entries.isEmpty
  | PyVal.obj _ => true
  | PyVal.badStr => true

/-- Python `str()`.  Fails exactly on `badStr`; container and object
reprs are abstracted to fixed placeholders (see the module comment). -/
def pyStr (v : PyVal) : Option String :=
  match v with
  | PyVal.none => some "None"
  | PyVal.bool true => some "True"
  | PyVal.bool false => some "False"
  | PyVal.int n => some (toString n)
  | PyVal.str s => some s
  | PyVal.list _ => some "[list]"
  | PyVal.dict _ => some "[dict]"
  | PyVal.obj _ => some "[object]"
  | PyVal.badStr => Option.none

/-- Total `str()` for call sites whose surrounding handler the claims
never exercise on a failing conversion. -/
def pyStrD (v : PyVal) : String :=
  (pyStr v).getD "[unstringifiable]"

/-- Representative code points of the characters CPython's
`str.isdecimal` accepts (Unicode general category Nd): the ASCII digits
and, as a stand-in for the other Nd blocks, the Arabic-Indic digits
U+0660..U+0669. -/
def pyIsDecimalChar (c : Char) : Bool :=
  c.isDigit || (0x660 ≤ c.toNat && c.toNat ≤ 0x669)

/-- Representative code points of the characters CPython's `str.isdigit`
accepts: every decimal digit plus the characters with Unicode property
Numeric_Type=Digit that are not decimal digits, represented here by the
Latin-1 superscripts ¹ (U+00B9), ² (U+00B2) and ³ (U+00B3).  This class
is strictly larger than the decimal digits. -/
def pyIsDigitChar (c : Char) : Bool :=
  pyIsDecimalChar c || c.toNat == 0xB2 || c.toNat == 0xB3 || c.toNat == 0xB9

/-- Python `s.isdigit()`: `s` is non-empty and every character is a
digit character in CPython's `isdigit` sense. -/
def pyIsdigit (s : String) : Bool :=
  (s != "") && s.toList.all pyIsDigitChar

/-- Embeds `_is_numeric_like` (src/plugin.py lines 41-46):
`str(s).isdigit()` inside a `try` that returns `False` when the string
conversion raises. -/
def _is_numeric_like (v : PyVal) : Bool :=
  match pyStr v with
  | some s => pyIsdigit s
  | Option.none => false

/-- Definition following the claim's words, for comparison with
`_is_numeric_like`: the string form exists, is non-empty and consists
only of decimal digits. -/
def specIsValidDecimal (v : PyVal) : Bool :=
  match pyStr v with
  | some s => (s != "") && s.toList.all pyIsDecimalChar
  | Option.none => false

/-- ASCII lower-casing of one character; the response fields the
gateway lower-cases and searches are ASCII keywords, so Python's full
Unicode `str.lower` is modelled on the ASCII range. -/
def lowerCharAscii (c : Char) : Char :=
  if 65 ≤ c.toNat && c.toNat ≤ 90 then Char.ofNat (c.toNat + 32) else c

/-- Python `s.lower()` on the ASCII range (see `lowerCharAscii`). -/
def pyLower (s : String) : String :=
  String.mk (s.toList.map lowerCharAscii)

/-- The first list is a leading run of the second. -/
def headMatches : List Char → List Char → Bool
  | [], _ => true
  | _ :: _, [] => false
  | a :: as, b :: bs => a == b && headMatches as bs

def containsChars (pat s : List Char) : Bool :=
  match s with
  | [] => headMatches pat []
  | _ :: rest => headMatches pat s || containsChars pat rest

/-- Python substring containment `pat in s`. -/
def containsSub (s pat : String) : Bool :=
  containsChars pat.toList s.toList

/-- Python `a or b` on values (first operand when truthy). -/
def pyOr (a b : PyVal) : PyVal :=
  if pyTruthy a then a else b

/-- Python `v == 0` for the modelled values (note `False == 0` holds in
Python). -/
def pyEqZero (v : PyVal) : Bool :=
  match v with
  | PyVal.int n => n == 0
  | PyVal.bool b => !b
  | _ => false

/-- The priority key list of `RecallAction._extract_target_id_from_context`
(src/plugin.py lines 152-159). -/
def KEY_CANDIDATES : List String :=
  ["target_message_id", "message_id", "platform_message_id", "id", "napcat_message_id",
   "reply", "reply_id", "reply_to", "reply_message_id", "replied_message_id",
   "quote", "quote_id", "quoted", "quoted_id", "quoted_message_id",
   "source", "source_id", "source_message_id",
   "message_ref_id", "reference_message_id", "refer_message_id",
   "seq", "msgSeq", "msg_id", "msgId", "origin_message_id"]

/-- The identifier key list used by `_query_message_id_from_api` (line 84)
and by the verification scan in `_post_verify` (line 247); the source
spells out the same literal twice. -/
def API_ID_KEYS : List String :=
  ["message_id", "platform_message_id", "id", "napcat_message_id", "msg_id", "msgId"]

/-- Path join `f"[path].[k]" if path else k` of `_deep_find_key`. -/
def joinPath (path k : String) : String :=
  if path == "" then k else path ++ "." ++ k

/-- The Python test `v is None`. -/
def isNone (v : PyVal) : Bool :=
  match v with
  | PyVal.none => true
  | _ => false

/-- The own-keys test of `_deep_find_key` (lines 537-539 and 548-550): the
first candidate key, in priority order, that is bound on this node to a
non-`None` value. -/
def ownKeysHit (entries : List (String × PyVal)) (path : String) :
    List String → Option (String × PyVal)
  | [] => Option.none
  | k :: ks =>
    match lookupEntry entries k with
    | some v =>
      if isNone v then ownKeysHit entries path ks else some (joinPath path k, v)
    | Option.none => ownKeysHit entries path ks

/-- First hit over the (at most 50) children of a mapping or attribute
set; `f` is the recursive scan at one depth less. -/
def findSomeHit (f : String → PyVal → Option (String × PyVal)) :
    List (String × PyVal) → Option (String × PyVal)
  | [] => Option.none
  | (k, v) :: rest =>
    match f k v with
    | some hit => some hit
    | Option.none => findSomeHit f rest

/-- First hit over the (at most 50) elements of a sequence, carrying the
running index for the path. -/
def findSomeElem (f : Nat → PyVal → Option (String × PyVal)) :
    Nat → List PyVal → Option (String × PyVal)
  | _, [] => Option.none
  | i, v :: rest =>
    match f i v with
    | some hit => some hit
    | Option.none => findSomeElem f (i + 1) rest

/-- Embeds `_deep_find_key` (src/plugin.py lines 533-564).  The source
recursion bottoms out when `max_depth` drops below zero; here `fuel`
counts the remaining inspectable levels, so the source default
`max_depth = 4` corresponds to `fuel = 5`.  At a mapping node the
candidate keys are tested against the node's own keys before any descent
into children; attribute sets are treated like mappings; sequences are
descended element-wise; introspection failure on any other node finds
nothing. -/
def _deep_find_key (keys : List String) : Nat → PyVal → String → Option (String × PyVal)
  | 0, _, _ => Option.none
  | fuel + 1, obj, path =>
    match obj with
    | PyVal.none => Option.none
    | PyVal.dict entries =>
      match ownKeysHit entries path keys with
      | some hit => some hit
      | Option.none =>
        findSomeHit (fun k v => _deep_find_key keys fuel v (joinPath path k)) (entries.take 50)
    | PyVal.list xs =>
      findSomeElem (fun i v => _deep_find_key keys fuel v (path ++ "[" ++ toString i ++ "]"))
        0 (xs.take 50)
    | other =>
      match getVars other with
      | some attrs =>
        match ownKeysHit attrs path keys with
        | some hit => some hit
        | Option.none =>
          findSomeHit (fun k v => _deep_find_key keys fuel v (joinPath path k)) (attrs.take 50)
      | Option.none => Option.none

/-- Scan of a priority key list against a dict with the guard
`d.get(k)` truthy and `_is_numeric_like(d[k])`, shared by step 2 and the
dict case of step 3 of `_extract_target_id_from_context` and by the key
loop of `_query_message_id_from_api`. -/
def scanDictKeys (entries : List (String × PyVal)) : List String → Option PyVal
  | [] => Option.none
  | k :: ks =>
    let v := dictGetD entries k PyVal.none
    if pyTruthy v && _is_numeric_like v then some v else scanDictKeys entries ks

/-- Scan of a priority key list against the attributes of an object with
the guard `_safe_getattr(am, k)` truthy and numeric-like (step 3 of
`_extract_target_id_from_context`, non-dict case). -/
def scanAttrKeys (am : PyVal) : List String → Option PyVal
  | [] => Option.none
  | k :: ks =>
    let v := pyGetAttrD am k
    if pyTruthy v && _is_numeric_like v then some v else scanAttrKeys am ks

/-- A log statement whose f-string interpolates `self.log_prefix`.
`_query_message_id_from_api` is a module-level function, so the name
`self` is unbound there and every such statement raises `NameError`. -/
def selfLogRef : Except PyErr Unit :=
  Except.error PyErr.nameError

/-- Embeds `_query_message_id_from_api` (src/plugin.py lines 73-95): query
the messaging-history service for the single most recent non-bot message
(the response is the parameter `msgs`) and return its first truthy,
numeric-like identifier field.  Every branch of the body executes a log
statement interpolating the unbound name `self` (lines 87, 89, 91), so
the body always raises `NameError`; the `except` handler (line 94)
interpolates `self` again, so the `NameError` escapes the handler. -/
def _query_message_id_from_api (msgs : List PyVal) : Except PyErr (Option String) :=
  let body : Except PyErr (Option String) :=
    match msgs with
    | [] => do selfLogRef; pure Option.none
    | m :: _ =>
      match m with
      | PyVal.dict entries =>
        match scanDictKeys entries API_ID_KEYS with
        | some v => do selfLogRef; pure (some (pyStrD v))
        | Option.none => do selfLogRef; pure Option.none
      | _ => do selfLogRef; pure Option.none
  match body with
  | Except.ok r => Except.ok r
  | Except.error _ => do selfLogRef; pure Option.none

theorem query_always_raises (msgs : List PyVal) :
    _query_message_id_from_api msgs = Except.error PyErr.nameError := by
  unfold _query_message_id_from_api
  cases msgs with
  | nil => rfl
  | cons m rest =>
    cases m <;> simp only [selfLogRef] <;>
      first
      | rfl
      | (rename_i entries; cases scanDictKeys entries API_ID_KEYS <;> rfl)

/-- Result quadruple `(ok, used_cmd, raw_result, note)` of
`_try_delete_with_fallbacks`. -/
structure DeleteResult where
  ok : Bool
  usedCmd : String
  raw : PyVal
  note : String
deriving Repr

/-- The fixed ordered candidate backend command names
(src/plugin.py line 505). -/
def DELETE_COMMAND_CANDIDATES : List String :=
  ["DELETE_MSG", "delete_msg", "RECALL_MSG", "recall_msg"]

/-- Success interpretation of one backend response (lines 514-519): a
boolean is taken at face value; a dict succeeds iff its status field is
case-insensitively ok/success or its retcode or code field equals 0;
anything else is a failure. -/
def respIndicatesSuccess (res : PyVal) : Bool :=
  match res with
  | PyVal.bool b => b
  | PyVal.dict entries =>
    let statusLow := pyLower (pyStrD (dictGetD entries "status" (PyVal.str "")))
    statusLow == "ok" || statusLow == "success" ||
      pyEqZero (dictGetD entries "retcode" PyVal.none) ||
      pyEqZero (dictGetD entries "code" PyVal.none)
  | _ => false

/-- Diagnostic-note update after a failed dict response (lines 522-527):
inspect `res.get("msg") or res.get("message") or ""`, lower-cased, for
permission or time-window substrings; otherwise keep the running note. -/
def updateNote (res : PyVal) (note : String) : String :=
  match res with
  | PyVal.dict entries =>
    let m := pyStrD (pyOr (dictGetD entries "msg" PyVal.none)
      (pyOr (dictGetD entries "message" PyVal.none) (PyVal.str "")))
    let ml := pyLower m
    if containsSub ml "permission" || containsSub ml "admin" then
      "可能权限不足（Bot非管理员或无法撤回他人消息）"
    else if containsSub ml "time" || containsSub ml "expired" then
      "可能超出撤回时间窗口"
    else note
  | _ => note

/-- Python `note or "撤回失败"` on the diagnostic note (line 531). -/
def defNote (note : String) : String :=
  if note == "" then "撤回失败" else note

/-- The candidate loop of `_try_delete_with_fallbacks` (lines 506-531):
`f` maps a command name to its backend response or a raised exception.
An exception is swallowed and the next candidate tried; a successful
response returns immediately; exhaustion returns failure with
`DELETE_COMMAND_CANDIDATES[-1]`, no raw result, and the running note
defaulted. -/
def tryDeleteAux (f : String → Except PyErr PyVal) :
    List String → String → DeleteResult
  | [], note => ⟨false, "recall_msg", PyVal.none, defNote note⟩
  | c :: cs, note =>
    match f c with
    | Except.error _ => tryDeleteAux f cs note
    | Except.ok res =>
      if respIndicatesSuccess res then ⟨true, c, res, note⟩
      else tryDeleteAux f cs (updateNote res note)

/-- Embeds `_try_delete_with_fallbacks` (src/plugin.py lines 500-531). -/
def _try_delete_with_fallbacks (f : String → Except PyErr PyVal) : DeleteResult :=
  tryDeleteAux f DELETE_COMMAND_CANDIDATES ""

/-- A command succeeds on `f` when its response arrives without an
exception and indicates success. -/
def succeedsOn (f : String → Except PyErr PyVal) (c : String) : Bool :=
  match f c with
  | Except.ok r => respIndicatesSuccess r
  | Except.error _ => false

/-- The note left by folding `updateNote` over the (non-raising)
responses of a command list, as the claim's last-seen diagnostic note. -/
def lastSeenNote (f : String → Except PyErr PyVal) (note : String) :
    List String → String
  | [] => note
  | c :: cs =>
    match f c with
    | Except.ok res => lastSeenNote f (updateNote res note) cs
    | Except.error _ => lastSeenNote f note cs

/-- The commands actually attempted by the fallback loop: every
candidate up to and including the first success. -/
def attemptedCandidates (f : String → Except PyErr PyVal) : List String → List String
  | [] => []
  | c :: cs =>
    if succeedsOn f c then [c] else c :: attemptedCandidates f cs

/-- The configuration values the plugin reads through `get_config`, after
type coercion (`behavior.recall_delay_ms` goes through `int(...)`). -/
structure Config where
  allowedGroups : List String
  errorMessages : List String
  recallDisplay : String
  verifyEnabled : Bool
  verifyAttempts : Nat
  recallDelayMs : Int

/-- The attributes of one invocation that `RecallAction` reads off
itself and off the framework-supplied context objects.  `platform` and
`group_id` are the framework-supplied scalars; `chat_id`,
`conversation_id`, `peer_id` and `channel_id` are the optional
attributes probed by `_pick_chat_id` (`PyVal.none` when absent);
`action_data`, `action_message` and `message` are the loosely-structured
context roots. -/
structure ActionCtx where
  is_group : Bool
  platform : String
  group_id : String
  chat_id : PyVal
  conversation_id : PyVal
  peer_id : PyVal
  channel_id : PyVal
  action_data : PyVal
  action_message : PyVal
  message : PyVal

/-- Observable events of one invocation, in program order: the resolver
ran; the recent-recall cache short-circuited; the permission check ran /
denied; a user-visible notice was sent; a backend delete command was
issued; the verification probe fetched history; a deferred deletion was
scheduled. -/
inductive Event where
  | resolveAttempt
  | cacheShortCircuit
  | permissionChecked
  | permissionDenied
  | sendText (s : String)
  | sendCommand (cmd : String)
  | verifyFetch
  | scheduled
deriving DecidableEq, Repr

/-- Outcome of `RecallAction.execute`: the returned `(bool, str)` pair,
or an exception escaping the entry point. -/
inductive ExecOutcome where
  | ret (ok : Bool) (msg : String)
  | raised (e : PyErr)
deriving DecidableEq, Repr

/-- The per-instance `_recent_recalls` cache: identifier to the
timestamp (seconds) of its recorded removal; assignment shadows by
consing. -/
abbrev RecallState := List (String × Int)

def cacheLookup (st : RecallState) (mid : String) : Option Int :=
  match st with
  | [] => Option.none
  | (k, t) :: rest => if k == mid then some t else cacheLookup rest mid

def cacheInsert (mid : String) (t : Int) (st : RecallState) : RecallState :=
  (mid, t) :: st

/-- The cache test of `RecallAction.execute` (lines 270-271): the
resolved identifier is a cache key and fewer than 300 seconds have
elapsed.  An unresolved identifier (`None`) is never a key. -/
def cacheFresh (st : RecallState) (now : Int) : Option String → Bool
  | Option.none => false
  | some mid =>
    match cacheLookup st mid with
    | some t => now - t < 300
    | Option.none => false

/-- The environment of one `RecallAction` invocation: configuration, the
invocation context, the externally supplied judgement verdict token
(`Option.none` when the attribute is absent), the history responses for
the fallback query and for each verification fetch, the backend response
per delete command name, the invocation wall-clock time, and the index
the pseudo-random error-message choice resolves to. -/
structure Env where
  cfg : Config
  ctx : ActionCtx
  llmJudgeResult : Option String
  fallbackMsgs : List PyVal
  deleteResp : String → Except PyErr PyVal
  verifyFetch : Except PyErr (List PyVal)
  now : Int
  choiceIdx : Nat

/-- Python `random.choice(l)`: some element of `l`, `IndexError` on an
empty list; which element is drawn is abstracted into `idx`. -/
def randomChoice (idx : Nat) (l : List String) : Except PyErr String :=
  match l with
  | [] => Except.error PyErr.indexError
  | x :: xs => Except.ok ((x :: xs).getD (idx % (x :: xs).length) x)

/-- Embeds `RecallAction._check_group_permission` (src/plugin.py lines
129-145): group chats only; an empty whitelist allows every group;
otherwise the key `f"[platform]:[group_id]"` must be whitelisted. -/
def groupKey (ctx : ActionCtx) : String :=
  ctx.platform ++ ":" ++ ctx.group_id

def RecallAction._check_group_permission (cfg : Config) (ctx : ActionCtx) :
    Bool × Option String :=
  if !ctx.is_group then (false, some "撤回动作只能在群聊中使用")
  else if cfg.allowedGroups.isEmpty then (true, Option.none)
  else if cfg.allowedGroups.contains (groupKey ctx) then (true, Option.none)
  else (false, some "当前群组没有使用撤回动作的权限")

/-- Embeds `RecallAction._pick_chat_id` (lines 215-222): the first truthy
attribute among chat_id, group_id, conversation_id, peer_id, channel_id,
stringified. -/
def firstTruthyAttr : List PyVal → Option String
  | [] => Option.none
  | v :: rest => if pyTruthy v then some (pyStrD v) else firstTruthyAttr rest

def RecallAction._pick_chat_id (ctx : ActionCtx) : Option String :=
  firstTruthyAttr
    [ctx.chat_id, PyVal.str ctx.group_id, ctx.conversation_id, ctx.peer_id, ctx.channel_id]

/-- One history record bears the target identifier when any identifier
field of the record stringifies to it (line 247-249). -/
def msgMatchesId (m : PyVal) (mid : String) : Bool :=
  match m with
  | PyVal.dict entries =>
    API_ID_KEYS.any (fun k => pyStrD (dictGetD entries k (PyVal.str "")) == mid)
  | _ => false

def msgsContainMid (msgs : List PyVal) (mid : String) : Bool :=
  msgs.any (fun m => msgMatchesId m mid)

/-- The polling loop of `_post_verify` (lines 236-259), one fuel per
remaining attempt: fetch the recent window; a fetch exception is caught
by the surrounding `try` and reported as `verify_error`; if the target
identifier is absent from the window, record it in the recall cache and
report `not_found_after_delete`; if it is still present after all
attempts, report `still_exists`. -/
def verifyLoop (env : Env) (st : RecallState) (mid : String) :
    Nat → (Bool × String) × RecallState × List Event
  | 0 => ((false, "still_exists"), st, [])
  | n + 1 =>
    match env.verifyFetch with
    | Except.error _ => ((true, "verify_error"), st, [Event.verifyFetch])
    | Except.ok msgs =>
      if msgsContainMid msgs mid then
        let r := verifyLoop env st mid n
        (r.1, r.2.1, Event.verifyFetch :: r.2.2)
      else
        ((true, "not_found_after_delete"), cacheInsert mid env.now st, [Event.verifyFetch])

/-- Embeds `RecallAction._post_verify` (src/plugin.py lines 224-262):
skip when verification is disabled or no chat id is resolvable,
otherwise poll. -/
def RecallAction._post_verify (env : Env) (st : RecallState) (mid : String) :
    (Bool × String) × RecallState × List Event :=
  if !env.cfg.verifyEnabled then ((true, "skip"), st, [])
  else
    match RecallAction._pick_chat_id env.ctx with
    | Option.none => ((true, "skip_no_chat_id"), st, [])
    | some _ => verifyLoop env st mid env.cfg.verifyAttempts

/-- Step 1 of `_extract_target_id_from_context` (lines 161-165):
`action_message.message_id` when the message object is truthy and has
the attribute and the value is numeric-like. -/
def step1 (ctx : ActionCtx) : Option String :=
  if pyTruthy ctx.action_message then
    match pyGetAttrOpt ctx.action_message "message_id" with
    | some mid => if _is_numeric_like mid then some (pyStrD mid) else Option.none
    | Option.none => Option.none
  else Option.none

/-- Step 2 (lines 167-172): the priority keys against
`action_data or {}` when it is a dict. -/
def step2Scan (ctx : ActionCtx) : Option PyVal :=
  let args := if pyTruthy ctx.action_data then ctx.action_data else PyVal.dict []
  match args with
  | PyVal.dict entries => scanDictKeys entries KEY_CANDIDATES
  | _ => Option.none

/-- Step 3 (lines 174-186): the priority keys against the message object,
in mapping form or attribute form. -/
def step3Scan (ctx : ActionCtx) : Option PyVal :=
  match ctx.action_message with
  | PyVal.dict entries => scanDictKeys entries KEY_CANDIDATES
  | am => scanAttrKeys am KEY_CANDIDATES

/-- Step 6 (lines 204-211): the live fallback.  `_pick_chat_id` is
evaluated first (line 206); the history service is queried only for the
reference platform with a truthy chat id. -/
def fallbackQuery (ctx : ActionCtx) (fallbackMsgs : List PyVal) :
    Except PyErr (Option String) :=
  let cid := RecallAction._pick_chat_id ctx
  if ctx.platform == "qq" && cid.isSome then
    _query_message_id_from_api fallbackMsgs
  else Except.ok Option.none

/-- Embeds `RecallAction._extract_target_id_from_context` (src/plugin.py
lines 147-213).  After the direct steps, the deep scan runs over
`action_message`; only when that whole scan found nothing is the local
variable `cs` bound (line 192) and the chat-stream / message-wrapper
scans run.  A non-numeric hit from the `action_message` scan therefore
reaches the debug log at line 202, which reads the unbound `cs` and
raises `NameError`; a non-numeric hit from the later scans falls through
to the live fallback. -/
def RecallAction._extract_target_id_from_context (ctx : ActionCtx)
    (fallbackMsgs : List PyVal) : Except PyErr (Option String) :=
  match step1 ctx with
  | some s => Except.ok (some s)
  | Option.none =>
  match step2Scan ctx with
  | some v => Except.ok (some (pyStrD v))
  | Option.none =>
  match step3Scan ctx with
  | some v => Except.ok (some (pyStrD v))
  | Option.none =>
  match _deep_find_key KEY_CANDIDATES 5 ctx.action_message "action_message" with
  | some (_, v) =>
    if _is_numeric_like v then Except.ok (some (pyStrD v))
    else Except.error PyErr.nameError
  | Option.none =>
    let cs := pyGetAttrD ctx.message "chat_stream"
    let hit :=
      match _deep_find_key KEY_CANDIDATES 5 cs "message.chat_stream" with
      | some h => some h
      | Option.none => _deep_find_key KEY_CANDIDATES 5 ctx.message "message"
    match hit with
    | some (_, v) =>
      if _is_numeric_like v then Except.ok (some (pyStrD v))
      else fallbackQuery ctx fallbackMsgs
    | Option.none => fallbackQuery ctx fallbackMsgs

/-- The inline dispatch branch of `RecallAction.execute` (lines 311-322):
deletion with fallbacks, post-verification, a failure notice when the
deletion failed with a non-empty note, and the invocation result. -/
def dispatchImmediate (env : Env) (st : RecallState) (mid : String) :
    ExecOutcome × RecallState × List Event :=
  let d := _try_delete_with_fallbacks env.deleteResp
  let devs := (attemptedCandidates env.deleteResp DELETE_COMMAND_CANDIDATES).map Event.sendCommand
  let v := RecallAction._post_verify env st mid
  let tailEvs := if !d.ok && d.note != "" then [Event.sendText ("❌ 撤回失败：" ++ d.note)] else []
  if d.ok then
    (ExecOutcome.ret true ("已请求撤回 message_id=" ++ mid), v.2.1, devs ++ v.2.2 ++ tailEvs)
  else
    (ExecOutcome.ret false ("撤回失败 message_id=" ++ mid ++ " (" ++ d.note ++ ")"),
      v.2.1, devs ++ v.2.2 ++ tailEvs)

/-- The deferred dispatch branch (lines 323-339): the invocation reports
a scheduled success immediately; the background task's deletion,
verification and failure notice are folded in after `Event.scheduled`
(timing abstracted, effects kept). -/
def dispatchDeferred (env : Env) (st : RecallState) (mid : String) :
    ExecOutcome × RecallState × List Event :=
  let d := _try_delete_with_fallbacks env.deleteResp
  let devs := (attemptedCandidates env.deleteResp DELETE_COMMAND_CANDIDATES).map Event.sendCommand
  let v := RecallAction._post_verify env st mid
  let tailEvs := if !d.ok && d.note != "" then [Event.sendText ("❌ 撤回失败：" ++ d.note)] else []
  (ExecOutcome.ret true ("已计划撤回 (" ++ toString env.cfg.recallDelayMs ++ "ms 后) message_id=" ++ mid),
    v.2.1, Event.scheduled :: (devs ++ v.2.2 ++ tailEvs))

/-- Everything `RecallAction.execute` does after the cache check (lines
275-339): permission gate, missing-identifier report, platform
validation, judgement check (the verdict token defaults to the
affirmative `"是"` when the attribute is absent, line 303), dispatch. -/
def executePostCache (env : Env) (st : RecallState) (midOpt : Option String) :
    ExecOutcome × RecallState × List Event :=
  let perm := RecallAction._check_group_permission env.cfg env.ctx
  if !perm.1 then
    (ExecOutcome.ret false ((perm.2).getD ""), st,
      [Event.permissionDenied, Event.sendText ("❌ " ++ (perm.2).getD "")])
  else
    match midOpt with
    | Option.none =>
      match randomChoice env.choiceIdx env.cfg.errorMessages with
      | Except.error e => (ExecOutcome.raised e, st, [])
      | Except.ok emsg =>
        (ExecOutcome.ret false "未找到可撤回的目标消息", st, [Event.sendText ("❌ " ++ emsg)])
    | some mid =>
      if env.ctx.platform == "qq" && !pyIsdigit mid then
        match randomChoice env.choiceIdx env.cfg.errorMessages with
        | Except.error e => (ExecOutcome.raised e, st, [])
        | Except.ok emsg =>
          (ExecOutcome.ret false "无效的 QQ message_id（必须为纯数字）", st,
            [Event.sendText ("❌ " ++ emsg)])
      else if (env.llmJudgeResult.getD "是") != "是" then
        (ExecOutcome.ret true "LLM 判定无需撤回", st, [])
      else if env.cfg.recallDelayMs ≤ 0 then dispatchImmediate env st mid
      else dispatchDeferred env st mid

/-- Embeds `RecallAction.execute` (src/plugin.py lines 264-339): resolve
the target first (its exceptions escape the entry point), then the
recent-recall cache check, then everything behind the permission gate.
The permission check runs exactly once on every path past the cache
check, marked by `Event.permissionChecked`. -/
def RecallAction.execute (env : Env) (st : RecallState) :
    ExecOutcome × RecallState × List Event :=
  match RecallAction._extract_target_id_from_context env.ctx env.fallbackMsgs with
  | Except.error e => (ExecOutcome.raised e, st, [Event.resolveAttempt])
  | Except.ok midOpt =>
    if cacheFresh st env.now midOpt then
      (ExecOutcome.ret true ("消息 " ++ midOpt.getD "None" ++ " 已撤回，跳过"), st,
        [Event.resolveAttempt, Event.cacheShortCircuit])
    else
      let r := executePostCache env st midOpt
      (r.1, r.2.1, Event.resolveAttempt :: Event.permissionChecked :: r.2.2)

/-- A sequence of invocations against one coordinator instance, starting
from its cache state and collecting every trace. -/
def runSeq : List Env → RecallState → RecallState × List Event
  | [], st => (st, [])
  | env :: rest, st =>
    let r := RecallAction.execute env st
    let r2 := runSeq rest r.2.1
    (r2.1, r.2.2 ++ r2.2)

/-- Outcome of `RecallCommand.execute`: the returned
`(bool, Optional[str], bool)` triple, or an exception escaping the entry
point. -/
inductive CmdOutcome where
  | ret (ok : Bool) (msg : String) (intercepted : Bool)
  | raised (e : PyErr)
deriving DecidableEq, Repr

/-- Modelled from the spec: the host framework's command base class is an
external collaborator specified only through its interface (spec section
6: `send_text`, `send_command`, `get_config`, pattern capture groups); it
does not supply the action-only helper `_extract_target_id_from_context`
that line 366 looks up on the command object, so that lookup raises
`AttributeError`. -/
def commandExtractFromContext : Except PyErr (Option String) :=
  Except.error PyErr.attributeError

/-- Modelled from the spec: likewise the action-only helper
`_pick_chat_id` is absent from the command object, so the unbound call
`RecallAction._post_verify(self, mid)` (line 385) reaches
`self._pick_chat_id()` (line 229, outside the `try`) and raises
`AttributeError` whenever verification is enabled. -/
def commandPostVerify (cfg : Config) : Except PyErr (Bool × String) :=
  if !cfg.verifyEnabled then Except.ok (true, "skip")
  else Except.error PyErr.attributeError

/-- The environment of one `RecallCommand` invocation. -/
structure CmdEnv where
  cfg : Config
  platform : String
  group_id : PyVal
  matchedMid : Option String
  deleteResp : String → Except PyErr PyVal
  choiceIdx : Nat

/-- The tail of `RecallCommand.execute` once an identifier is in hand
(lines 373-401). -/
def RecallCommand.executeWithMid (env : CmdEnv) (mid : String) : CmdOutcome × List Event :=
  if env.platform == "qq" && !pyIsdigit mid then
    match randomChoice env.choiceIdx env.cfg.errorMessages with
    | Except.error e => (CmdOutcome.raised e, [])
    | Except.ok emsg =>
      (CmdOutcome.ret false "无效的 QQ message_id（必须为纯数字）" true,
        [Event.sendText ("❌ " ++ emsg)])
  else
    let d := _try_delete_with_fallbacks env.deleteResp
    let devs := (attemptedCandidates env.deleteResp DELETE_COMMAND_CANDIDATES).map Event.sendCommand
    if env.cfg.recallDelayMs ≤ 0 then
      match commandPostVerify env.cfg with
      | Except.error e => (CmdOutcome.raised e, devs)
      | Except.ok _ =>
        let tailEvs := if !d.ok && d.note != "" then [Event.sendText ("❌ 撤回失败：" ++ d.note)] else []
        if d.ok then (CmdOutcome.ret true ("已请求撤回 message_id=" ++ mid) true, devs ++ tailEvs)
        else
          (CmdOutcome.ret false ("撤回失败 message_id=" ++ mid ++ " (" ++ d.note ++ ")") true,
            devs ++ tailEvs)
    else
      (CmdOutcome.ret true ("已计划撤回 (" ++ toString env.cfg.recallDelayMs ++ "ms 后) message_id=" ++ mid) true,
        [Event.scheduled])

/-- Embeds `RecallCommand.execute` (src/plugin.py lines 351-401):
whitelist gate (no group-chat requirement here), explicit argument or
context extraction (the latter raises, see `commandExtractFromContext`),
platform validation, then inline or deferred dispatch; on the inline
path the unbound-method post-verification runs (see
`commandPostVerify`), and a background task absorbs it on the deferred
path. -/
def RecallCommand.execute (env : CmdEnv) : CmdOutcome × List Event :=
  if !env.cfg.allowedGroups.isEmpty &&
      !env.cfg.allowedGroups.contains (env.platform ++ ":" ++ pyStrD env.group_id) then
    (CmdOutcome.ret false "当前群组没有使用撤回命令的权限" true,
      [Event.sendText "❌ 当前群组没有使用撤回命令的权限"])
  else
    match env.matchedMid with
    | Option.none =>
      match commandExtractFromContext with
      | Except.error e => (CmdOutcome.raised e, [])
      | Except.ok Option.none =>
        match randomChoice env.choiceIdx env.cfg.errorMessages with
        | Except.error e => (CmdOutcome.raised e, [])
        | Except.ok emsg =>
          (CmdOutcome.ret false "请回复目标消息或提供 /recall <message_id>" true,
            [Event.sendText ("❌ " ++ emsg)])
      | Except.ok (some mid) => RecallCommand.executeWithMid env mid
    | some mid => RecallCommand.executeWithMid env mid

/-! Claim theorems.  Concrete environments used by counterexamples and
witnesses are declared next to the claims that use them. -/

/-- C5 counterexample: the superscript two passes `str.isdigit` (and so
passes `_is_numeric_like`) although its string form does not consist
only of decimal digits, so the claimed equivalence with the
decimal-digits predicate fails at `c = "²"`. -/
theorem c5_counterexample :
    _is_numeric_like (PyVal.str "²") = true ∧
    specIsValidDecimal (PyVal.str "²") = false := by
  constructor <;> decide

/-- C5 (amended): for every candidate `v`, the validator returns true
iff the string form of `v` exists, is non-empty, and consists only of
Python digit characters (the decimal digits plus the digit-typed
characters such as superscripts); the validator is a total function
(never raises) and a candidate whose string conversion fails yields
false. -/
theorem c5_validator_amended (v : PyVal) :
    (_is_numeric_like v = true ↔
      ∃ s, pyStr v = some s ∧ s ≠ "" ∧ s.toList.all pyIsDigitChar = true) ∧
    (pyStr v = Option.none → _is_numeric_like v = false) := by
  unfold _is_numeric_like pyIsdigit
  cases h : pyStr v with
  | none => simp
  | some s => simp [h, Bool.and_eq_true, bne_iff_ne]

/-- C5 witness: the amended equivalence evaluated at the all-digit
string "123" and at a value whose string conversion fails. -/
theorem c5_validator_amended_witness :
    _is_numeric_like (PyVal.str "123") = true ∧
    _is_numeric_like PyVal.badStr = false :=
  ⟨(c5_validator_amended (PyVal.str "123")).1.mpr ⟨"123", rfl, by decide, by decide⟩,
   (c5_validator_amended PyVal.badStr).2 rfl⟩

theorem exists_ownKeysHit (entries : List (String × PyVal)) (path : String) :
    ∀ (keys : List String) (k : String) (v : PyVal), k ∈ keys →
      lookupEntry entries k = some v → isNone v = false →
      ∃ k2 v2, k2 ∈ keys ∧ lookupEntry entries k2 = some v2 ∧ isNone v2 = false ∧
        ownKeysHit entries path keys = some (joinPath path k2, v2) := by
  intro keys
  induction keys with
  | nil => intro k v hk _ _; exact absurd hk (List.not_mem_nil k)
  | cons k0 ks ih =>
    intro k v hk hb hv
    cases hl : lookupEntry entries k0 with
    | none =>
      have hk2 : k ∈ ks := by
        rcases List.mem_cons.mp hk with h | h
        · subst h; rw [hl] at hb; exact absurd hb (by simp)
        · exact h
      obtain ⟨k2, v2, h1, h2, h3, h4⟩ := ih k v hk2 hb hv
      exact ⟨k2, v2, List.mem_cons_of_mem _ h1, h2, h3, by simp [ownKeysHit, hl, h4]⟩
    | some v0 =>
      by_cases h0 : isNone v0 = true
      · have hk2 : k ∈ ks := by
          rcases List.mem_cons.mp hk with h | h
          · subst h; rw [hl] at hb; injection hb with hb2; subst hb2
            rw [h0] at hv; exact absurd hv (by simp)
          · exact h
        obtain ⟨k2, v2, h1, h2, h3, h4⟩ := ih k v hk2 hb hv
        exact ⟨k2, v2, List.mem_cons_of_mem _ h1, h2, h3, by simp [ownKeysHit, hl, h0, h4]⟩
      · refine ⟨k0, v0, List.mem_cons_self _ _, hl, by simpa using h0, ?_⟩
        simp [ownKeysHit, hl, h0]

/-- C9: over any tree whose root mapping binds a candidate key to a
non-`None` value — in particular a tree that also binds the same key to
a different value at depth 3 — the scanner answers from the root's own
keys, before any descent into children: it returns a root-level binding
of a candidate key, whatever the deeper content of the tree. -/
theorem c9_shallow_hit_wins (entries : List (String × PyVal)) (path k : String) (v : PyVal)
    (hk : k ∈ KEY_CANDIDATES) (hb : lookupEntry entries k = some v)
    (hv : isNone v = false) :
    ∃ k2 v2, k2 ∈ KEY_CANDIDATES ∧ lookupEntry entries k2 = some v2 ∧ isNone v2 = false ∧
      _deep_find_key KEY_CANDIDATES 5 (PyVal.dict entries) path = some (joinPath path k2, v2) := by
  obtain ⟨k2, v2, h1, h2, h3, h4⟩ :=
    exists_ownKeysHit entries path KEY_CANDIDATES k v hk hb hv
  exact ⟨k2, v2, h1, h2, h3, by rw [_deep_find_key, h4]⟩

/-- The witness tree: the candidate key "message_id" is bound at depth 1
and again, with a different value, at depth 3. -/
def treeC9 : List (String × PyVal) :=
  [("message_id", PyVal.str "111"),
   ("payload", PyVal.dict [("inner", PyVal.dict [("message_id", PyVal.str "999")])])]

/-- C9 witness: on `treeC9` the scanner returns the depth-1 binding. -/
theorem c9_shallow_hit_wins_witness :
    (∃ k2 v2, k2 ∈ KEY_CANDIDATES ∧ lookupEntry treeC9 k2 = some v2 ∧ isNone v2 = false ∧
      _deep_find_key KEY_CANDIDATES 5 (PyVal.dict treeC9) "" = some (joinPath "" k2, v2)) ∧
    _deep_find_key KEY_CANDIDATES 5 (PyVal.dict treeC9) "" = some ("message_id", PyVal.str "111") :=
  ⟨c9_shallow_hit_wins treeC9 "" "message_id" (PyVal.str "111") (by decide) rfl rfl, rfl⟩

theorem tryDeleteAux_spec (f : String → Except PyErr PyVal) :
    ∀ (cmds : List String) (note : String),
      (∀ c, cmds.find? (succeedsOn f) = some c →
        (tryDeleteAux f cmds note).ok = true ∧ (tryDeleteAux f cmds note).usedCmd = c ∧
        succeedsOn f c = true) ∧
      (cmds.find? (succeedsOn f) = Option.none →
        tryDeleteAux f cmds note =
          ⟨false, "recall_msg", PyVal.none, defNote (lastSeenNote f note cmds)⟩) := by
  intro cmds
  induction cmds with
  | nil =>
    intro note
    refine ⟨fun c hc => by simp [List.find?] at hc, fun _ => rfl⟩
  | cons c0 cs ih =>
    intro note
    by_cases hs : succeedsOn f c0 = true
    · have hfind : (c0 :: cs).find? (succeedsOn f) = some c0 :=
        List.find?_cons_of_pos _ hs
      have hok : ∃ r, f c0 = Except.ok r ∧ respIndicatesSuccess r = true := by
        unfold succeedsOn at hs
        cases hf : f c0 with
        | ok r => exact ⟨r, rfl, by rw [hf] at hs; exact hs⟩
        | error e => rw [hf] at hs; simp at hs
      obtain ⟨r, hf, hr⟩ := hok
      constructor
      · intro c hc
        rw [hfind] at hc; injection hc with hc; subst hc
        refine ⟨?_, ?_, hs⟩ <;> simp [tryDeleteAux, hf, hr]
      · intro hnone; rw [hfind] at hnone; exact absurd hnone (by simp)
    · have hs2 : succeedsOn f c0 = false := by simpa using hs
      have hfind : (c0 :: cs).find? (succeedsOn f) = cs.find? (succeedsOn f) :=
        List.find?_cons_of_neg _ (by simp [hs2])
      cases hf : f c0 with
      | error e =>
        have hred : tryDeleteAux f (c0 :: cs) note = tryDeleteAux f cs note := by
          simp [tryDeleteAux, hf]
        have hnote : lastSeenNote f note (c0 :: cs) = lastSeenNote f note cs := by
          simp [lastSeenNote, hf]
        refine ⟨fun c hc => ?_, fun hnone => ?_⟩
        · rw [hfind] at hc; rw [hred]; exact (ih note).1 c hc
        · rw [hfind] at hnone; rw [hred, hnote]; exact (ih note).2 hnone
      | ok r =>
        have hr : respIndicatesSuccess r = false := by
          unfold succeedsOn at hs2; rw [hf] at hs2; exact hs2
        have hred : tryDeleteAux f (c0 :: cs) note = tryDeleteAux f cs (updateNote r note) := by
          simp [tryDeleteAux, hf, hr]
        have hnote : lastSeenNote f note (c0 :: cs) = lastSeenNote f (updateNote r note) cs := by
          simp [lastSeenNote, hf]
        refine ⟨fun c hc => ?_, fun hnone => ?_⟩
        · rw [hfind] at hc; rw [hred]; exact (ih (updateNote r note)).1 c hc
        · rw [hfind] at hnone; rw [hred, hnote]; exact (ih (updateNote r note)).2 hnone

/-- C8: the deletion gateway scans its fixed candidate commands in
order, a raising candidate being skipped like a failing one; it returns
success with the first command whose response indicates success, and
only when no candidate succeeds does it return failure, carrying the
fixed last candidate name, no raw result, and the running (last-seen)
diagnostic note defaulted to "撤回失败" when nothing was captured. -/
theorem c8_deletion_gateway (f : String → Except PyErr PyVal) :
    (∀ c, DELETE_COMMAND_CANDIDATES.find? (succeedsOn f) = some c →
      (_try_delete_with_fallbacks f).ok = true ∧
      (_try_delete_with_fallbacks f).usedCmd = c ∧ succeedsOn f c = true) ∧
    (DELETE_COMMAND_CANDIDATES.find? (succeedsOn f) = Option.none →
      _try_delete_with_fallbacks f =
        ⟨false, "recall_msg", PyVal.none, defNote (lastSeenNote f "" DELETE_COMMAND_CANDIDATES)⟩) :=
  tryDeleteAux_spec f DELETE_COMMAND_CANDIDATES ""

/-- Backend responses for the C8 witness: the first candidate raises,
the second fails with a permission note, the third succeeds. -/
def fRespC8 : String → Except PyErr PyVal := fun c =>
  if c == "DELETE_MSG" then Except.error PyErr.typeError
  else if c == "delete_msg" then
    Except.ok (PyVal.dict [("retcode", PyVal.int 1), ("msg", PyVal.str "no permission")])
  else if c == "RECALL_MSG" then Except.ok (PyVal.dict [("status", PyVal.str "OK")])
  else Except.ok (PyVal.bool false)

/-- C8 witness: on `fRespC8` the gateway succeeds with the third
candidate, the raising first candidate having been swallowed. -/
theorem c8_deletion_gateway_witness :
    (_try_delete_with_fallbacks fRespC8).ok = true ∧
    (_try_delete_with_fallbacks fRespC8).usedCmd = "RECALL_MSG" ∧
    succeedsOn fRespC8 "RECALL_MSG" = true :=
  (c8_deletion_gateway fRespC8).1 "RECALL_MSG" (by decide)

/-- C3: the live fallback is broken — `_query_message_id_from_api`
raises `NameError` on every history response (the exact failure the
spec's totality and fallback clauses contradict), in particular on a
response carrying the single most recent non-bot message with a
non-empty all-decimal-digit identifier, where the spec says the
identifier "123456" is returned. -/
theorem c3_fallback_query_raises :
    _query_message_id_from_api [PyVal.dict [("message_id", PyVal.str "123456")]] =
      Except.error PyErr.nameError ∧
    ∀ msgs : List PyVal, _query_message_id_from_api msgs = Except.error PyErr.nameError :=
  ⟨query_always_raises _, query_always_raises⟩

/-- A configuration with an empty whitelist, verification disabled and
immediate dispatch. -/
def cfgPlain : Config :=
  ⟨[], ["未找到目标消息，请回复目标消息或提供 message_id"],
   "🗑️ 正在撤回一条消息（严重违规）…", false, 2, 0⟩

/-- C4 failing context: a group invocation on platform "qq" with a
resolvable chat id and no identifier anywhere in the local context, so
resolution reaches the live fallback query. -/
def ctxC4 : ActionCtx :=
  ⟨true, "qq", "111", PyVal.str "111", PyVal.none, PyVal.none, PyVal.none,
   PyVal.dict [], PyVal.none, PyVal.none⟩

def envC4 : Env :=
  ⟨cfgPlain, ctxC4, Option.none, [PyVal.dict [("message_id", PyVal.str "123456")]],
   fun _ => Except.ok (PyVal.bool true), Except.ok [], 0, 0⟩

/-- C4 failing command environment: a manual `/recall` with no explicit
identifier argument. -/
def cmdEnvC4 : CmdEnv :=
  ⟨cfgPlain, "qq", PyVal.none, Option.none, fun _ => Except.ok (PyVal.bool true), 0⟩

/-- C4: both entry points can let an exception escape.  The automatic
trigger raises `NameError` (the unbound `self` of
`_query_message_id_from_api`) whenever resolution falls through to the
live fallback; the manual command with no explicit identifier raises
`AttributeError` looking up the action-only context-extraction helper
on the command object. -/
theorem c4_entry_points_raise :
    (RecallAction.execute envC4 []).1 = ExecOutcome.raised PyErr.nameError ∧
    (RecallCommand.execute cmdEnvC4).1 = CmdOutcome.raised PyErr.attributeError :=
  ⟨rfl, rfl⟩

/-- Backend that rejects every command (no invocation below reaches it
anyway). -/
def fRespNone : String → Except PyErr PyVal := fun _ => Except.error PyErr.typeError

/-- C1 scenario: whitelist `["qq:999"]`, invocation scoped to `qq:111`,
with a directly resolvable identifier in the parameter set. -/
def cfgC1 : Config :=
  ⟨["qq:999"], ["未找到目标消息，请回复目标消息或提供 message_id"], "🗑️", false, 2, 0⟩

def ctxC1 : ActionCtx :=
  ⟨true, "qq", "111", PyVal.none, PyVal.none, PyVal.none, PyVal.none,
   PyVal.dict [("target_message_id", PyVal.str "123")], PyVal.none, PyVal.none⟩

def envC1 : Env :=
  ⟨cfgC1, ctxC1, some "是", [], fRespNone, Except.ok [], 0, 0⟩

/-- C1 counterexample: in the claim's own scenario (whitelist
`["qq:999"]`, conversation `qq:111`) the run does end in the permission
failure, but its very first event is the identifier-resolution attempt —
resolution is performed before the permission check, contradicting the
claimed `Start → CacheCheck → PermissionCheck → ResolveTarget` order and
the requirement that resolution not be attempted. -/
theorem c1_counterexample :
    (RecallAction.execute envC1 []).1 =
      ExecOutcome.ret false "当前群组没有使用撤回动作的权限" ∧
    (RecallAction.execute envC1 []).2.2.head? = some Event.resolveAttempt :=
  ⟨rfl, rfl⟩

/-- C1 (amended): the coordinator resolves the identifier first (it
needs it for the cache check); on a cache miss, for every invocation
whose conversation is not in the non-empty configured whitelist, it then
reports the permission failure with a user notice — before target
validation and with no deletion command, no verification fetch and no
scheduling: the realised order is Start → ResolveTarget → CacheCheck →
PermissionCheck → Report. -/
theorem c1_permission_denied_after_resolution (env : Env) (st : RecallState)
    (midOpt : Option String)
    (hres : RecallAction._extract_target_id_from_context env.ctx env.fallbackMsgs =
      Except.ok midOpt)
    (hfresh : cacheFresh st env.now midOpt = false)
    (hgrp : env.ctx.is_group = true)
    (hne : env.cfg.allowedGroups.isEmpty = false)
    (hnot : env.cfg.allowedGroups.contains (groupKey env.ctx) = false) :
    RecallAction.execute env st =
      (ExecOutcome.ret false "当前群组没有使用撤回动作的权限", st,
        [Event.resolveAttempt, Event.permissionChecked, Event.permissionDenied,
         Event.sendText "❌ 当前群组没有使用撤回动作的权限"]) := by
  unfold RecallAction.execute
  rw [hres]
  simp only [hfresh, Bool.false_eq_true, if_false]
  have hmem : groupKey env.ctx ∉ env.cfg.allowedGroups := by simpa using hnot
  unfold executePostCache RecallAction._check_group_permission
  simp [hgrp, hne, hmem]

/-- C1 witness: the amended statement at the claim's own scenario. -/
theorem c1_permission_denied_after_resolution_witness :
    RecallAction.execute envC1 [] =
      (ExecOutcome.ret false "当前群组没有使用撤回动作的权限", [],
        [Event.resolveAttempt, Event.permissionChecked, Event.permissionDenied,
         Event.sendText "❌ 当前群组没有使用撤回动作的权限"]) :=
  c1_permission_denied_after_resolution envC1 [] (some "123") rfl rfl rfl rfl rfl

/-- C2 scenario: everything in place for a deletion (whitelist empty,
valid identifier, immediate dispatch, first backend command succeeds)
but the judgement verdict attribute entirely absent. -/
def ctxC2 : ActionCtx :=
  ⟨true, "qq", "111", PyVal.none, PyVal.none, PyVal.none, PyVal.none,
   PyVal.dict [("target_message_id", PyVal.str "123")], PyVal.none, PyVal.none⟩

def fRespOk : String → Except PyErr PyVal := fun _ => Except.ok (PyVal.bool true)

def envC2 : Env :=
  ⟨cfgPlain, ctxC2, Option.none, [], fRespOk, Except.ok [], 0, 0⟩

/-- C2 counterexample: with the verdict token entirely absent the code
defaults it to the affirmative `"是"` (line 303) and proceeds to
dispatch — a deletion command is issued and the run reports a requested
deletion, contradicting the claim that an absent token means no deletion
attempt and a "no action needed" terminal state. -/
theorem c2_counterexample :
    envC2.llmJudgeResult = Option.none ∧
    Event.sendCommand "DELETE_MSG" ∈ (RecallAction.execute envC2 []).2.2 ∧
    (RecallAction.execute envC2 []).1 = ExecOutcome.ret true "已请求撤回 message_id=123" := by
  refine ⟨rfl, ?_, rfl⟩
  show Event.sendCommand "DELETE_MSG" ∈
    [Event.resolveAttempt, Event.permissionChecked, Event.sendCommand "DELETE_MSG"]
  simp

/-- C2 (amended): for every run that reaches the judgement check (an
identifier resolved, cache miss, permission granted, validation passed)
with a verdict token that is present and different from the exact
affirmative `"是"`, the coordinator performs no deletion attempt, no
scheduling and no verification, and terminates in the non-error
"no action needed" state; an absent token, however, defaults to the
affirmative and proceeds to dispatch. -/
theorem c2_non_affirmative_token_no_action (env : Env) (st : RecallState)
    (s mid : String)
    (htok : env.llmJudgeResult = some s)
    (hne : s ≠ "是")
    (hres : RecallAction._extract_target_id_from_context env.ctx env.fallbackMsgs =
      Except.ok (some mid))
    (hfresh : cacheFresh st env.now (some mid) = false)
    (hperm : (RecallAction._check_group_permission env.cfg env.ctx).1 = true)
    (hvalid : (env.ctx.platform == "qq" && !pyIsdigit mid) = false) :
    RecallAction.execute env st =
      (ExecOutcome.ret true "LLM 判定无需撤回", st,
        [Event.resolveAttempt, Event.permissionChecked]) := by
  unfold RecallAction.execute
  rw [hres]
  simp only [hfresh, Bool.false_eq_true, if_false]
  unfold executePostCache
  simp [hperm, hvalid, htok, hne]

/-- C2 witness: the amended statement with the explicit verdict token
"否" in the C2 scenario. -/
def envC2n : Env :=
  ⟨cfgPlain, ctxC2, some "否", [], fRespOk, Except.ok [], 0, 0⟩

theorem c2_non_affirmative_token_no_action_witness :
    RecallAction.execute envC2n [] =
      (ExecOutcome.ret true "LLM 判定无需撤回", [],
        [Event.resolveAttempt, Event.permissionChecked]) :=
  c2_non_affirmative_token_no_action envC2n [] "否" "123" rfl (by decide) rfl rfl rfl rfl

/-- C6: when the resolved identifier has a cache entry and fewer than
300 seconds have elapsed, the whole workflow short-circuits to a success
report — the cache is untouched and the trace shows neither a permission
check nor any backend command nor verification; once at least 300
seconds have elapsed, the invocation proceeds through the normal
workflow, whose every path performs the permission check. -/
theorem c6_recent_recall_short_circuit (env : Env) (st : RecallState) (mid : String) (t : Int)
    (hres : RecallAction._extract_target_id_from_context env.ctx env.fallbackMsgs =
      Except.ok (some mid))
    (hl : cacheLookup st mid = some t) :
    (env.now - t < 300 →
      RecallAction.execute env st =
        (ExecOutcome.ret true ("消息 " ++ mid ++ " 已撤回，跳过"), st,
          [Event.resolveAttempt, Event.cacheShortCircuit])) ∧
    (300 ≤ env.now - t →
      Event.permissionChecked ∈ (RecallAction.execute env st).2.2) := by
  have hc : cacheFresh st env.now (some mid) = decide (env.now - t < 300) := by
    simp only [cacheFresh]
    rw [hl]
  constructor
  · intro h
    unfold RecallAction.execute
    rw [hres]
    simp [hc, h]
  · intro h
    unfold RecallAction.execute
    rw [hres]
    have hfalse : cacheFresh st env.now (some mid) = false := by
      rw [hc]; simpa using not_lt.mpr h
    simp [hfalse]

/-- C6 witness cache state: identifier "123" recorded at time 0,
invocation at time 100 (within the window). -/
def envC6 : Env :=
  ⟨cfgPlain, ctxC2, some "是", [], fRespNone, Except.ok [], 100, 0⟩

theorem c6_recent_recall_short_circuit_witness :
    RecallAction.execute envC6 [("123", 0)] =
      (ExecOutcome.ret true "消息 123 已撤回，跳过", [("123", 0)],
        [Event.resolveAttempt, Event.cacheShortCircuit]) :=
  (c6_recent_recall_short_circuit envC6 [("123", 0)] "123" 0 rfl rfl).1 (by decide)

/-- C7 counterexample context: nothing in the direct steps, the deep
scan of the chat-stream sub-object finds the non-numeric candidate
"abc" under the candidate key "reply", while the generic message
wrapper — a later documented location — carries the validator-passing
identifier "123"; the platform is not the reference platform, so the
live fallback finds nothing. -/
def ctxC7 : ActionCtx :=
  ⟨true, "unknown", "111", PyVal.none, PyVal.none, PyVal.none, PyVal.none,
   PyVal.dict [], PyVal.none,
   PyVal.obj [("chat_stream", PyVal.dict [("reply", PyVal.str "abc")]),
              ("message_id", PyVal.str "123")]⟩

/-- C7 counterexample: the message wrapper holds a validator-passing
identifier at a documented later location, yet the resolver returns
nothing, because the non-validating chat-stream hit ended the local
search instead of letting it continue. -/
theorem c7_counterexample :
    _deep_find_key KEY_CANDIDATES 5 ctxC7.message "message" =
      some ("message.message_id", PyVal.str "123") ∧
    _is_numeric_like (PyVal.str "123") = true ∧
    RecallAction._extract_target_id_from_context ctxC7 [] = Except.ok Option.none :=
  ⟨rfl, by decide, rfl⟩

/-- C7 (amended): the resolver tries the documented sources in order and
steps 1-3 do skip a failing candidate and keep searching; but in the
deep-scan step validation is applied only to the first raw hit of the
combined scan: when the direct steps and the `action_message` scan find
nothing and the chat-stream scan returns a hit that fails validation,
the generic message wrapper is never scanned and control falls through
to the live fallback (here disabled: non-reference platform), so the
resolver returns nothing whatever the message wrapper contains. -/
theorem c7_failed_deep_hit_stops_search (ctx : ActionCtx) (fb : List PyVal)
    (p : String) (v : PyVal)
    (h1 : step1 ctx = Option.none)
    (h2 : step2Scan ctx = Option.none)
    (h3 : step3Scan ctx = Option.none)
    (h4 : _deep_find_key KEY_CANDIDATES 5 ctx.action_message "action_message" = Option.none)
    (h5 : _deep_find_key KEY_CANDIDATES 5 (pyGetAttrD ctx.message "chat_stream")
      "message.chat_stream" = some (p, v))
    (h6 : _is_numeric_like v = false)
    (h7 : (ctx.platform == "qq") = false) :
    RecallAction._extract_target_id_from_context ctx fb = Except.ok Option.none := by
  unfold RecallAction._extract_target_id_from_context
  rw [h1, h2, h3, h4]
  simp [h5, h6, fallbackQuery, h7]

/-- C7 witness: the amended statement at the counterexample context,
whose message wrapper does contain a validator-passing identifier. -/
theorem c7_failed_deep_hit_stops_search_witness :
    RecallAction._extract_target_id_from_context ctxC7 [] = Except.ok Option.none :=
  c7_failed_deep_hit_stops_search ctxC7 [] "message.chat_stream.reply" (PyVal.str "abc")
    rfl rfl rfl rfl rfl (by decide) rfl

theorem dispatchImmediate_state (env : Env) (st : RecallState) (mid : String) :
    (dispatchImmediate env st mid).2.1 = (RecallAction._post_verify env st mid).2.1 := by
  unfold dispatchImmediate
  by_cases h : (_try_delete_with_fallbacks env.deleteResp).ok = true <;> simp [h]

theorem dispatchDeferred_state (env : Env) (st : RecallState) (mid : String) :
    (dispatchDeferred env st mid).2.1 = (RecallAction._post_verify env st mid).2.1 := by
  unfold dispatchDeferred
  simp

theorem verifyLoop_state (env : Env) (st : RecallState) (mid : String) :
    ∀ n : Nat, (verifyLoop env st mid n).2.1 = st ∨
      ((verifyLoop env st mid n).2.1 = cacheInsert mid env.now st ∧
        ∃ msgs, env.verifyFetch = Except.ok msgs ∧ msgsContainMid msgs mid = false) := by
  intro n
  induction n with
  | zero => left; rfl
  | succ n ih =>
    unfold verifyLoop
    cases hf : env.verifyFetch with
    | error e => left; rfl
    | ok msgs =>
      by_cases hc : msgsContainMid msgs mid = true
      · simp only [hc, if_true]
        rcases ih with h | ⟨h, msgs2, hm2, hc2⟩
        · left; exact h
        · right
          refine ⟨h, msgs2, ?_, hc2⟩
          rw [← hf]
          exact hm2
      · right
        have hc2 : msgsContainMid msgs mid = false := by simpa using hc
        simp only [hc2, Bool.false_eq_true, if_false]
        refine ⟨?_, msgs, ?_, hc2⟩ <;> first | rfl | trivial

/-- The exact condition under which one invocation writes the
recent-recall cache: verification enabled, a chat id resolvable, and the
target identifier absent from the fetched recent window. -/
def cacheWriteCond (env : Env) (mid : String) : Prop :=
  env.cfg.verifyEnabled = true ∧ (RecallAction._pick_chat_id env.ctx).isSome = true ∧
  ∃ msgs, env.verifyFetch = Except.ok msgs ∧ msgsContainMid msgs mid = false

theorem post_verify_state (env : Env) (st : RecallState) (mid : String) :
    (RecallAction._post_verify env st mid).2.1 = st ∨
    ((RecallAction._post_verify env st mid).2.1 = cacheInsert mid env.now st ∧
      cacheWriteCond env mid) := by
  unfold RecallAction._post_verify
  by_cases he : env.cfg.verifyEnabled = true
  · cases hp : RecallAction._pick_chat_id env.ctx with
    | none => left; simp [he]
    | some cid =>
      rcases verifyLoop_state env st mid env.cfg.verifyAttempts with h | ⟨h, msgs, hm, hc⟩
      · left; simpa [he, hp] using h
      · right
        exact ⟨by simpa [he, hp] using h, he, by simp [hp], msgs, hm, hc⟩
  · left
    simp [(by simpa using he : env.cfg.verifyEnabled = false)]

theorem executePostCache_state (env : Env) (st : RecallState) (midOpt : Option String) :
    (executePostCache env st midOpt).2.1 = st ∨
    ∃ mid, (executePostCache env st midOpt).2.1 = cacheInsert mid env.now st ∧
      cacheWriteCond env mid := by
  by_cases hp : (RecallAction._check_group_permission env.cfg env.ctx).1 = true
  · cases midOpt with
    | none =>
      cases hr : randomChoice env.choiceIdx env.cfg.errorMessages with
      | error e => left; simp [executePostCache, hp, hr]
      | ok emsg => left; simp [executePostCache, hp, hr]
    | some mid =>
      by_cases hv : (env.ctx.platform == "qq" && !pyIsdigit mid) = true
      · cases hr : randomChoice env.choiceIdx env.cfg.errorMessages with
        | error e => left; simp [executePostCache, hp, hv, hr]
        | ok emsg => left; simp [executePostCache, hp, hv, hr]
      · by_cases hl : (env.llmJudgeResult.getD "是" != "是") = true
        · left; simp [executePostCache, hp, hv, hl]
        · by_cases hd : env.cfg.recallDelayMs ≤ 0
          · have hred : (executePostCache env st (some mid)).2.1 =
                (dispatchImmediate env st mid).2.1 := by
              simp [executePostCache, hp, hv, hl, hd]
            rw [hred, dispatchImmediate_state]
            rcases post_verify_state env st mid with h | ⟨h, hw⟩
            · left; exact h
            · right; exact ⟨mid, h, hw⟩
          · have hred : (executePostCache env st (some mid)).2.1 =
                (dispatchDeferred env st mid).2.1 := by
              simp [executePostCache, hp, hv, hl, hd]
            rw [hred, dispatchDeferred_state]
            rcases post_verify_state env st mid with h | ⟨h, hw⟩
            · left; exact h
            · right; exact ⟨mid, h, hw⟩
  · left
    simp [executePostCache,
      (by simpa using hp : (RecallAction._check_group_permission env.cfg env.ctx).1 = false)]

theorem execute_state (env : Env) (st : RecallState) :
    (RecallAction.execute env st).2.1 = st ∨
    ∃ mid, (RecallAction.execute env st).2.1 = cacheInsert mid env.now st ∧
      cacheWriteCond env mid := by
  unfold RecallAction.execute
  cases RecallAction._extract_target_id_from_context env.ctx env.fallbackMsgs with
  | error e => left; rfl
  | ok midOpt =>
    by_cases hf : cacheFresh st env.now midOpt = true
    · left; simp [hf]
    · have hf2 : cacheFresh st env.now midOpt = false := by simpa using hf
      simpa [hf2] using executePostCache_state env st midOpt

theorem verifyLoop_events (env : Env) (st : RecallState) (mid : String) :
    ∀ n : Nat, ∀ e, e ∈ (verifyLoop env st mid n).2.2 → e = Event.verifyFetch := by
  intro n
  induction n with
  | zero => intro e he; simp [verifyLoop] at he
  | succ n ih =>
    intro e he
    unfold verifyLoop at he
    cases hf : env.verifyFetch with
    | error e2 =>
      rw [hf] at he
      simpa using he
    | ok msgs =>
      rw [hf] at he
      by_cases hc : msgsContainMid msgs mid = true
      · simp [hc] at he
        rcases he with he | he
        · exact he
        · exact ih e he
      · simpa [hc] using he

theorem post_verify_events (env : Env) (st : RecallState) (mid : String) :
    ∀ e, e ∈ (RecallAction._post_verify env st mid).2.2 → e = Event.verifyFetch := by
  intro e he
  unfold RecallAction._post_verify at he
  by_cases hv : env.cfg.verifyEnabled = true
  · rw [hv] at he
    cases hp : RecallAction._pick_chat_id env.ctx with
    | none => rw [hp] at he; simp at he
    | some cid =>
      rw [hp] at he
      exact verifyLoop_events env st mid env.cfg.verifyAttempts e (by simpa using he)
  · have hv2 : env.cfg.verifyEnabled = false := by simpa using hv
    rw [hv2] at he
    simp at he

theorem dispatchImmediate_events (env : Env) (st : RecallState) (mid : String) :
    (dispatchImmediate env st mid).2.2 =
      (attemptedCandidates env.deleteResp DELETE_COMMAND_CANDIDATES).map Event.sendCommand ++
      ((RecallAction._post_verify env st mid).2.2 ++
        (if (!(_try_delete_with_fallbacks env.deleteResp).ok &&
            (_try_delete_with_fallbacks env.deleteResp).note != "") = true then
          [Event.sendText ("❌ 撤回失败：" ++ (_try_delete_with_fallbacks env.deleteResp).note)]
        else [])) := by
  unfold dispatchImmediate
  by_cases h : (_try_delete_with_fallbacks env.deleteResp).ok = true <;> simp [h]

theorem dispatchDeferred_events (env : Env) (st : RecallState) (mid : String) :
    (dispatchDeferred env st mid).2.2 =
      Event.scheduled ::
        ((attemptedCandidates env.deleteResp DELETE_COMMAND_CANDIDATES).map Event.sendCommand ++
        ((RecallAction._post_verify env st mid).2.2 ++
          (if (!(_try_delete_with_fallbacks env.deleteResp).ok &&
              (_try_delete_with_fallbacks env.deleteResp).note != "") = true then
            [Event.sendText ("❌ 撤回失败：" ++ (_try_delete_with_fallbacks env.deleteResp).note)]
          else []))) := by
  unfold dispatchDeferred
  simp

theorem dispatchImmediate_no_shortcircuit (env : Env) (st : RecallState) (mid : String) :
    Event.cacheShortCircuit ∉ (dispatchImmediate env st mid).2.2 := by
  rw [dispatchImmediate_events]
  intro hmem
  rcases List.mem_append.mp hmem with h | h
  · rcases List.mem_map.mp h with ⟨c, _, hc⟩
    exact Event.noConfusion hc
  · rcases List.mem_append.mp h with h2 | h2
    · have := post_verify_events env st mid Event.cacheShortCircuit h2
      exact Event.noConfusion this
    · by_cases ht : (!(_try_delete_with_fallbacks env.deleteResp).ok &&
          (_try_delete_with_fallbacks env.deleteResp).note != "") = true <;>
        simp [ht] at h2

theorem dispatchDeferred_no_shortcircuit (env : Env) (st : RecallState) (mid : String) :
    Event.cacheShortCircuit ∉ (dispatchDeferred env st mid).2.2 := by
  rw [dispatchDeferred_events]
  intro hmem
  rcases List.mem_cons.mp hmem with h | h
  · exact Event.noConfusion h
  · rcases List.mem_append.mp h with h1 | h1
    · rcases List.mem_map.mp h1 with ⟨c, _, hc⟩
      exact Event.noConfusion hc
    · rcases List.mem_append.mp h1 with h2 | h2
      · have := post_verify_events env st mid Event.cacheShortCircuit h2
        exact Event.noConfusion this
      · by_cases ht : (!(_try_delete_with_fallbacks env.deleteResp).ok &&
            (_try_delete_with_fallbacks env.deleteResp).note != "") = true <;>
          simp [ht] at h2

theorem executePostCache_no_shortcircuit (env : Env) (st : RecallState)
    (midOpt : Option String) :
    Event.cacheShortCircuit ∉ (executePostCache env st midOpt).2.2 := by
  by_cases hp : (RecallAction._check_group_permission env.cfg env.ctx).1 = true
  · cases midOpt with
    | none =>
      cases hr : randomChoice env.choiceIdx env.cfg.errorMessages with
      | error e => simp [executePostCache, hp, hr]
      | ok emsg => simp [executePostCache, hp, hr]
    | some mid =>
      by_cases hv : (env.ctx.platform == "qq" && !pyIsdigit mid) = true
      · cases hr : randomChoice env.choiceIdx env.cfg.errorMessages with
        | error e => simp [executePostCache, hp, hv, hr]
        | ok emsg => simp [executePostCache, hp, hv, hr]
      · by_cases hl : (env.llmJudgeResult.getD "是" != "是") = true
        · simp [executePostCache, hp, hv, hl]
        · by_cases hd : env.cfg.recallDelayMs ≤ 0
          · have hred : (executePostCache env st (some mid)).2.2 =
                (dispatchImmediate env st mid).2.2 := by
              simp [executePostCache, hp, hv, hl, hd]
            rw [hred]
            exact dispatchImmediate_no_shortcircuit env st mid
          · have hred : (executePostCache env st (some mid)).2.2 =
                (dispatchDeferred env st mid).2.2 := by
              simp [executePostCache, hp, hv, hl, hd]
            rw [hred]
            exact dispatchDeferred_no_shortcircuit env st mid
  · simp [executePostCache,
      (by simpa using hp : (RecallAction._check_group_permission env.cfg env.ctx).1 = false)]

theorem cacheFresh_nil (now : Int) (midOpt : Option String) :
    cacheFresh [] now midOpt = false := by
  cases midOpt <;> rfl

theorem execute_no_shortcircuit_on_empty (env : Env) :
    Event.cacheShortCircuit ∉ (RecallAction.execute env []).2.2 := by
  unfold RecallAction.execute
  cases RecallAction._extract_target_id_from_context env.ctx env.fallbackMsgs with
  | error e => simp
  | ok midOpt =>
    simp only [cacheFresh_nil, Bool.false_eq_true, if_false]
    intro hmem
    simp only [List.mem_cons] at hmem
    rcases hmem with h | h | h
    · exact Event.noConfusion h
    · exact Event.noConfusion h
    · exact executePostCache_no_shortcircuit env [] midOpt h

theorem execute_state_quiet (env : Env) (st : RecallState)
    (h : env.cfg.verifyEnabled = false ∨ RecallAction._pick_chat_id env.ctx = Option.none) :
    (RecallAction.execute env st).2.1 = st := by
  rcases execute_state env st with h1 | ⟨mid, h1, hw⟩
  · exact h1
  · exfalso
    rcases h with h | h
    · have := hw.1
      rw [h] at this
      exact absurd this (by simp)
    · have := hw.2.1
      rw [h] at this
      exact absurd this (by simp)

/-- C10: the recent-recall cache is written only by the verification
probe, and only when verification is enabled, a chat id was resolved,
and the target identifier is absent from the fetched window (first
conjunct: every invocation either leaves the cache unchanged or performs
exactly that write under exactly those conditions); consequently, over
every sequence of invocations in which verification is disabled or no
chat id is resolvable, the cache stays empty and the five-minute dedup
short-circuit never fires (second conjunct). -/
theorem c10_cache_write_discipline :
    (∀ env st, (RecallAction.execute env st).2.1 = st ∨
      ∃ mid, (RecallAction.execute env st).2.1 = cacheInsert mid env.now st ∧
        cacheWriteCond env mid) ∧
    (∀ envs : List Env,
      (∀ env ∈ envs, env.cfg.verifyEnabled = false ∨
        RecallAction._pick_chat_id env.ctx = Option.none) →
      (runSeq envs []).1 = [] ∧ Event.cacheShortCircuit ∉ (runSeq envs []).2) := by
  refine ⟨execute_state, ?_⟩
  intro envs h
  induction envs with
  | nil => exact ⟨rfl, by simp [runSeq]⟩
  | cons env rest ih =>
    have hq : (RecallAction.execute env []).2.1 = [] :=
      execute_state_quiet env [] (h env (List.mem_cons_self _ _))
    have hrest := ih (fun e he => h e (List.mem_cons_of_mem _ he))
    constructor
    · show (runSeq (env :: rest) []).1 = []
      unfold runSeq
      simp only [hq]
      exact hrest.1
    · show Event.cacheShortCircuit ∉ (runSeq (env :: rest) []).2
      unfold runSeq
      simp only [hq]
      intro hmem
      rcases List.mem_append.mp hmem with hm | hm
      · exact execute_no_shortcircuit_on_empty env hm
      · exact hrest.2 hm

/-- C10 witness environment: verification disabled. -/
def envC10 : Env :=
  ⟨cfgPlain, ctxC2, some "是", [], fRespOk, Except.ok [], 0, 0⟩

/-- C10 witness: two consecutive quiet invocations leave the cache empty
and never short-circuit. -/
theorem c10_cache_write_discipline_witness :
    (runSeq [envC10, envC10] []).1 = [] ∧
    Event.cacheShortCircuit ∉ (runSeq [envC10, envC10] []).2 :=
  c10_cache_write_discipline.2 [envC10, envC10]
    (by
      intro e he
      rcases List.mem_cons.mp he with h | h
      · subst h; left; rfl
      · rcases List.mem_cons.mp h with h2 | h2
        · subst h2; left; rfl
        · exact absurd h2 (List.not_mem_nil _))
